import Mathlib

/-!
Shallow embedding of the offline/online synchronization engine of the
expense-tracker repository: the shared offline utilities (`addToQueue`,
`getQueue`, `clearQueue`), the transaction store (`refreshTransactions`,
`syncQueue`, `addTransaction`, `removeTransaction`, `updateTransaction`,
`bulkRenameInTransactions`) and the category/payment-method store
(`addExpenseCategory`, `addIncomeCategory`, `addPaymentMethod`).

JavaScript objects are modelled as association lists from field names to
string values (`Row`); the supabase client is modelled as a `Remote`
database plus a per-call outcome schedule (`Env.outcomes`): each remote
call either succeeds, resolves with an error field set (a remote
rejection, which supabase does not throw), or throws (the awaited
promise rejects).  React state and the localforage mirror are carried
explicitly in `TxState` / `DataState`.
-/

/-- A JS object: association list from field names to string values.
`getF` reads the first binding of a key, matching JS property lookup. -/
abbrev Row := List (String × String)

def getF (r : Row) (k : String) : Option String :=
  (r.find? (fun p => p.1 == k)).map (fun p => p.2)

/-- JS `{ ...r, [k]: v }` on an object whose keys are unique:
overwrite the first binding of `k` in place, or append it. -/
def setF : Row → String → String → Row
  | [], k, v => [(k, v)]
  | p :: r, k, v => if p.1 == k then (k, v) :: r else p :: setF r k v

/-- JS destructuring `const { k, ...rest } = r`: drop the key `k`. -/
def removeF (r : Row) (k : String) : Row :=
  r.filter (fun p => p.1 != k)

/-- JS `{ ...r, ...patch }`: apply the fields of `patch` left to right. -/
def mergeF (r : Row) : Row → Row
  | [] => r
  | p :: u => mergeF (setF r p.1 p.2) u

/-- Field read with JS-ish default for comparisons. -/
def getD (r : Row) (k : String) : String :=
  (getF r k).getD ""

/-- `t.id == v` as used by the stores' filters. -/
def idIs (v : String) (r : Row) : Bool :=
  getF r "id" == some v

/-- A mutation-queue action object, mirroring the untyped JS objects
pushed by `addToQueue`.  Fields absent on a given JS object keep their
default; the drains only read the fields their dispatch mentions. -/
structure QueueAction where
  type : String := ""
  entity : Option String := none
  data : Row := []
  id : String := ""
  field : String := ""
  oldValue : String := ""
  newValue : String := ""
deriving DecidableEq, Repr

/-- `addToQueue`: `queue.push(action)` on the persisted sync-queue. -/
def addToQueue (queue : List QueueAction) (action : QueueAction) : List QueueAction :=
  queue ++ [action]

/-- One call made against the supabase client (the Remote Store Adapter). -/
inductive RemoteCall where
  | insert (table : String) (row : Row)
  | update (table : String) (filterKey filterVal : String) (patch : Row)
  | deleteByFilter (table : String) (filterKey filterVal : String)
  | selectOrdered (table : String) (orderKey : String) (ascending : Bool)
deriving DecidableEq, Repr

/-- How one awaited supabase call resolves: normally, with its `error`
field set (a remote rejection, not thrown), or by rejecting the promise
(a thrown exception, e.g. a network failure). -/
inductive Outcome where
  | ok
  | rejected
  | thrown
deriving DecidableEq, Repr

/-- The authoritative database behind the supabase client. -/
structure Remote where
  transactions : List Row := []
  categories : List Row := []
  payment_methods : List Row := []
  nextId : Nat := 0
deriving DecidableEq, Repr

/-- Server-assigned identifiers, issued in insertion order. -/
def serverId (n : Nat) : String :=
  "srv-" ++ toString n

def tableRows (rem : Remote) (table : String) : List Row :=
  if table == "transactions" then rem.transactions
  else if table == "categories" then rem.categories
  else if table == "payment_methods" then rem.payment_methods
  else []

def setTable (rem : Remote) (table : String) (rows : List Row) : Remote :=
  if table == "transactions" then { rem with transactions := rows }
  else if table == "categories" then { rem with categories := rows }
  else if table == "payment_methods" then { rem with payment_methods := rows }
  else rem

/-- Lexicographic order on code points, structurally recursive so that
it evaluates; the same relation as `String.lt`. -/
def charsLt : List Char → List Char → Bool
  | [], [] => false
  | [], _ :: _ => true
  | _ :: _, [] => false
  | a :: as, b :: bs =>
    if a.toNat < b.toNat then true
    else if b.toNat < a.toNat then false
    else charsLt as bs

/-- String comparison used by the model of SQL ordering. -/
def strLt (a b : String) : Bool :=
  charsLt a.data b.data

/-- Insertion step of the model of SQL `ORDER BY key ASC|DESC`. -/
def insertOrd (key : String) (ascending : Bool) (r : Row) : List Row → List Row
  | [] => [r]
  | x :: xs =>
    if (if ascending then strLt (getD r key) (getD x key) else strLt (getD x key) (getD r key))
    then r :: x :: xs
    else x :: insertOrd key ascending r xs

/-- Model of SQL `ORDER BY key ASC|DESC` over a table. -/
def sortRows (key : String) (ascending : Bool) : List Row → List Row
  | [] => []
  | r :: rs => insertOrd key ascending r (sortRows key ascending rs)

/-- Ambient environment of a store call: `navigator.onLine`, the remote
database, and the resolution of the n-th remote call of the run. -/
structure Env where
  online : Bool
  remote : Remote
  outcomes : Nat → Outcome
  calls : Nat

/-- Result of one awaited supabase call. -/
structure CallResult where
  env : Env
  outcome : Outcome
  data : Option Row
  rows : List Row

/-- Perform one supabase call: consume the scheduled outcome; on success
apply the SQL effect and return the payload (`insert ... select single`
returns the inserted row with its server-assigned id, `select` returns
the ordered table, `update ... select single` returns a matched row). -/
def performCall (env : Env) (c : RemoteCall) : CallResult :=
  let envC : Env := { env with calls := env.calls + 1 }
  match env.outcomes env.calls with
  | Outcome.thrown => { env := envC, outcome := Outcome.thrown, data := none, rows := [] }
  | Outcome.rejected => { env := envC, outcome := Outcome.rejected, data := none, rows := [] }
  | Outcome.ok =>
    match c with
    | RemoteCall.insert table row =>
      let assigned := setF row "id" (serverId env.remote.nextId)
      let rem := setTable env.remote table (tableRows env.remote table ++ [assigned])
      { env := { envC with remote := { rem with nextId := env.remote.nextId + 1 } },
        outcome := Outcome.ok, data := some assigned, rows := [] }
    | RemoteCall.update table k v patch =>
      let rows := (tableRows env.remote table).map
        (fun r => if getF r k == some v then mergeF r patch else r)
      { env := { envC with remote := setTable env.remote table rows },
        outcome := Outcome.ok,
        data := rows.find? (fun r => getF r k == some v), rows := [] }
    | RemoteCall.deleteByFilter table k v =>
      let rows := (tableRows env.remote table).filter (fun r => !(getF r k == some v))
      { env := { envC with remote := setTable env.remote table rows },
        outcome := Outcome.ok, data := none, rows := [] }
    | RemoteCall.selectOrdered table key asc =>
      { env := envC, outcome := Outcome.ok, data := none,
        rows := sortRows key asc (tableRows env.remote table) }

/-- State of the `TransactionProvider`: React state plus the localforage
keys it owns (`"transactions"` mirror and the shared `"sync-queue"`). -/
structure TxState where
  transactions : List Row := []
  isConnected : Bool := true
  isOffline : Bool := false
  isSyncing : Bool := false
  isLoading : Bool := false
  error : Option String := none
  storedTx : List Row := []
  queue : List QueueAction := []
deriving DecidableEq, Repr

/-- `const tempId = "offline-" + Date.now()` (template literal). -/
def tempId (now : Nat) : String :=
  "offline-" ++ toString now

/-- `refreshTransactions`: offline, load the mirror; online, select all
transactions ordered by date descending, set state and rewrite the
mirror; any failure sets the error and falls back to offline flags. -/
def refreshTransactions (s : TxState) (env : Env) : TxState × Env × List RemoteCall :=
  let s1 := { s with isLoading := true, error := none }
  if env.online then
    let c := RemoteCall.selectOrdered "transactions" "date" false
    let r := performCall env c
    match r.outcome with
    | Outcome.ok =>
      ({ s1 with transactions := r.rows, storedTx := r.rows,
                 isConnected := true, isOffline := false, isLoading := false },
       r.env, [c])
    | _ =>
      ({ s1 with error := some "Failed to load transactions",
                 isConnected := false, isOffline := true, isLoading := false },
       r.env, [c])
  else
    ({ s1 with transactions := s1.storedTx,
               isConnected := false, isOffline := true, isLoading := false },
     env, [])

/-- Intermediate result of the `for (const action of queue)` loop of the
transaction store's `syncQueue`: the environment after the calls made so
far, the loop's `localTx` variable, the last value written to the UI
state and the mirror (if any add succeeded), the calls issued, and
whether an awaited call threw (aborting the loop). -/
structure DrainStep where
  env : Env
  localTx : List Row
  written : Option (List Row)
  trace : List RemoteCall
  threw : Bool

/-- The loop body of the transaction store's `syncQueue`, one queue entry
at a time.  Dispatch is on `action.type` only: `add` strips the id from
the payload, inserts into `transactions` and, when the call resolves
without error, replaces the temp-id row in `localTx` and writes it to
state and mirror; `update` and `delete` call supabase and ignore the
resolved error; any other type (notably `bulkRename`) has no branch. -/
def processTxQueue (env : Env) (localTx : List Row) (written : Option (List Row)) :
    List QueueAction → DrainStep
  | [] => { env := env, localTx := localTx, written := written, trace := [], threw := false }
  | a :: rest =>
    if a.type = "add" then
      let c := RemoteCall.insert "transactions" (removeF a.data "id")
      let r := performCall env c
      let tail : DrainStep :=
        match r.outcome, r.data with
        | Outcome.thrown, _ =>
          { env := r.env, localTx := localTx, written := written, trace := [], threw := true }
        | Outcome.ok, some row =>
          let newList := row :: localTx.filter (fun t => getF t "id" != getF a.data "id")
          processTxQueue r.env newList (some newList) rest
        | _, _ => processTxQueue r.env localTx written rest
      { tail with trace := c :: tail.trace }
    else if a.type = "update" then
      let c := RemoteCall.update "transactions" "id" a.id a.data
      let r := performCall env c
      let tail : DrainStep :=
        match r.outcome with
        | Outcome.thrown =>
          { env := r.env, localTx := localTx, written := written, trace := [], threw := true }
        | _ => processTxQueue r.env localTx written rest
      { tail with trace := c :: tail.trace }
    else if a.type = "delete" then
      let c := RemoteCall.deleteByFilter "transactions" "id" a.id
      let r := performCall env c
      let tail : DrainStep :=
        match r.outcome with
        | Outcome.thrown =>
          { env := r.env, localTx := localTx, written := written, trace := [], threw := true }
        | _ => processTxQueue r.env localTx written rest
      { tail with trace := c :: tail.trace }
    else
      processTxQueue env localTx written rest

/-- `syncQueue` of the transaction store: set `isSyncing`, read the
mirror and the queue, run the loop; if nothing threw, clear the queue
and refresh; a throw skips both, keeping the queue; `finally` resets
`isSyncing`.  Nothing reads `isSyncing` before running. -/
def syncQueue (s : TxState) (env : Env) : TxState × Env × List RemoteCall :=
  let s1 := { s with isSyncing := true }
  let step := processTxQueue env s1.storedTx none s1.queue
  let s2 :=
    match step.written with
    | some l => { s1 with transactions := l, storedTx := l }
    | none => s1
  if step.threw then
    ({ s2 with isSyncing := false }, step.env, step.trace)
  else
    let s3 := { s2 with queue := [] }
    let r := refreshTransactions s3 step.env
    ({ r.1 with isSyncing := false }, r.2.1, step.trace ++ r.2.2)

/-- `addTransaction`: offline, prepend the temp-id row to the mirror and
state and enqueue `{type: add, data}`; online, insert remotely, throw on
a remote rejection (error state set, Local Store untouched), otherwise
prepend the server row to state and mirror. -/
def addTransaction (txData : Row) (now : Nat) (s : TxState) (env : Env) :
    TxState × Env × List RemoteCall × Except String Unit :=
  let s1 := { s with isLoading := true, error := none }
  if env.online then
    let c := RemoteCall.insert "transactions" txData
    let r := performCall env c
    match r.outcome, r.data with
    | Outcome.ok, some row =>
      ({ s1 with transactions := row :: s1.transactions,
                 storedTx := row :: s1.storedTx, isLoading := false },
       r.env, [c], Except.ok ())
    | _, _ =>
      ({ s1 with error := some "Failed to add transaction", isLoading := false },
       r.env, [c], Except.error "Failed to add transaction")
  else
    let newTx := setF txData "id" (tempId now)
    ({ s1 with storedTx := newTx :: s1.storedTx,
               queue := addToQueue s1.queue { type := "add", data := newTx },
               transactions := newTx :: s1.storedTx, isLoading := false },
     env, [], Except.ok ())

/-- `removeTransaction`: offline, filter the row out of the mirror and
state and enqueue `{type: delete, id}`; online, delete remotely, throw
on a remote rejection (Local Store untouched), otherwise filter out. -/
def removeTransaction (i : String) (s : TxState) (env : Env) :
    TxState × Env × List RemoteCall × Except String Unit :=
  let s1 := { s with isLoading := true, error := none }
  if env.online then
    let c := RemoteCall.deleteByFilter "transactions" "id" i
    let r := performCall env c
    match r.outcome with
    | Outcome.ok =>
      ({ s1 with storedTx := s1.storedTx.filter (fun t => getF t "id" != some i),
                 transactions := s1.transactions.filter (fun t => getF t "id" != some i),
                 isLoading := false },
       r.env, [c], Except.ok ())
    | _ =>
      ({ s1 with error := some "Failed to remove transaction", isLoading := false },
       r.env, [c], Except.error "Failed to remove transaction")
  else
    let filtered := s1.storedTx.filter (fun t => getF t "id" != some i)
    ({ s1 with storedTx := filtered,
               queue := addToQueue s1.queue { type := "delete", id := i },
               transactions := filtered, isLoading := false },
     env, [], Except.ok ())

/-- `updateTransaction`: offline, merge the partial payload into the
matching row of the mirror and state and enqueue `{type: update, id,
data}`, returning the merged row; online, update remotely, throw on a
remote rejection (Local Store untouched), otherwise merge locally. -/
def updateTransaction (i : String) (updates : Row) (s : TxState) (env : Env) :
    TxState × Env × List RemoteCall × Except String (Option Row) :=
  let s1 := { s with isLoading := true, error := none }
  let upd := fun t => if getF t "id" == some i then mergeF t updates else t
  if env.online then
    let c := RemoteCall.update "transactions" "id" i updates
    let r := performCall env c
    match r.outcome with
    | Outcome.ok =>
      ({ s1 with storedTx := s1.storedTx.map upd,
                 transactions := s1.transactions.map upd, isLoading := false },
       r.env, [c], Except.ok r.data)
    | _ =>
      ({ s1 with error := some "Failed to update transaction", isLoading := false },
       r.env, [c], Except.error "Failed to update transaction")
  else
    let updatedTx := s1.storedTx.map upd
    ({ s1 with storedTx := updatedTx,
               queue := addToQueue s1.queue { type := "update", id := i, data := updates },
               transactions := updatedTx, isLoading := false },
     env, [], Except.ok (updatedTx.find? (fun t => getF t "id" == some i)))

/-- `bulkRenameInTransactions`: offline, rewrite `field` from `oldValue`
to `newValue` across the mirror and state and enqueue `{type:
bulkRename, field, oldValue, newValue}`; online, issue one predicate
update remotely, throw on a remote rejection (Local Store untouched),
otherwise rewrite locally. -/
def bulkRenameInTransactions (field oldValue newValue : String) (s : TxState) (env : Env) :
    TxState × Env × List RemoteCall × Except String Unit :=
  let s1 := { s with isLoading := true, error := none }
  let ren := fun t => if getF t field == some oldValue then setF t field newValue else t
  if env.online then
    let c := RemoteCall.update "transactions" field oldValue [(field, newValue)]
    let r := performCall env c
    match r.outcome with
    | Outcome.ok =>
      ({ s1 with storedTx := s1.storedTx.map ren,
                 transactions := s1.storedTx.map ren, isLoading := false },
       r.env, [c], Except.ok ())
    | _ =>
      ({ s1 with error := some "Failed to bulk rename", isLoading := false },
       r.env, [c], Except.error "Failed to bulk rename")
  else
    let updatedTx := s1.storedTx.map ren
    ({ s1 with storedTx := updatedTx,
               queue := addToQueue s1.queue
                 { type := "bulkRename", field := field, oldValue := oldValue, newValue := newValue },
               transactions := updatedTx, isLoading := false },
     env, [], Except.ok ())

/-- State of the `DataProvider`: React state plus the localforage keys
it owns (`"categories"`, `"payment_methods"`, shared `"sync-queue"`). -/
structure DataState where
  expenseCategories : List String := []
  incomeCategories : List String := []
  paymentMethods : List String := []
  isLoading : Bool := false
  isOffline : Bool := false
  isSyncing : Bool := false
  error : Option String := none
  storedCategories : List Row := []
  storedPaymentMethods : List Row := []
  queue : List QueueAction := []
deriving DecidableEq, Repr

/-- `addExpenseCategory`: guard `!category.trim() ||
expenseCategories.includes(category)` returns before touching anything;
offline, append a temp-id row to the mirror and enqueue an
entity-tagged add; online, insert remotely (errors are caught, not
rethrown). -/
def addExpenseCategory (category : String) (now : Nat) (s : DataState) (env : Env) :
    DataState × Env × List RemoteCall :=
  if category.trim == "" || s.expenseCategories.contains category then
    (s, env, [])
  else
    let s1 := { s with isLoading := true, error := none }
    if env.online then
      let c := RemoteCall.insert "categories" [("name", category), ("type", "expense")]
      let r := performCall env c
      match r.outcome, r.data with
      | Outcome.ok, some row =>
        ({ s1 with storedCategories := s1.storedCategories ++ [row],
                   expenseCategories := s1.expenseCategories ++ [category],
                   isLoading := false }, r.env, [c])
      | _, _ =>
        ({ s1 with error := some "Failed to add expense category",
                   isLoading := false }, r.env, [c])
    else
      let newCat : Row := [("id", "offline-cat-" ++ toString now),
                           ("name", category), ("type", "expense")]
      ({ s1 with storedCategories := s1.storedCategories ++ [newCat],
                 queue := addToQueue s1.queue
                   { entity := some "category", type := "add", data := newCat },
                 expenseCategories := s1.expenseCategories ++ [category],
                 isLoading := false }, env, [])

/-- `addIncomeCategory`: same shape as `addExpenseCategory` with type
`income` and the income list. -/
def addIncomeCategory (category : String) (now : Nat) (s : DataState) (env : Env) :
    DataState × Env × List RemoteCall :=
  if category.trim == "" || s.incomeCategories.contains category then
    (s, env, [])
  else
    let s1 := { s with isLoading := true, error := none }
    if env.online then
      let c := RemoteCall.insert "categories" [("name", category), ("type", "income")]
      let r := performCall env c
      match r.outcome, r.data with
      | Outcome.ok, some row =>
        ({ s1 with storedCategories := s1.storedCategories ++ [row],
                   incomeCategories := s1.incomeCategories ++ [category],
                   isLoading := false }, r.env, [c])
      | _, _ =>
        ({ s1 with error := some "Failed to add income category",
                   isLoading := false }, r.env, [c])
    else
      let newCat : Row := [("id", "offline-cat-" ++ toString now),
                           ("name", category), ("type", "income")]
      ({ s1 with storedCategories := s1.storedCategories ++ [newCat],
                 queue := addToQueue s1.queue
                   { entity := some "category", type := "add", data := newCat },
                 incomeCategories := s1.incomeCategories ++ [category],
                 isLoading := false }, env, [])

/-- `addPaymentMethod`: guard `!method.trim() ||
paymentMethods.includes(method)` returns before touching anything;
offline, append a temp-id row and enqueue an entity-tagged add; online,
insert remotely (errors are caught, not rethrown). -/
def addPaymentMethod (method : String) (now : Nat) (s : DataState) (env : Env) :
    DataState × Env × List RemoteCall :=
  if method.trim == "" || s.paymentMethods.contains method then
    (s, env, [])
  else
    let s1 := { s with isLoading := true, error := none }
    if env.online then
      let c := RemoteCall.insert "payment_methods" [("name", method)]
      let r := performCall env c
      match r.outcome, r.data with
      | Outcome.ok, some row =>
        ({ s1 with storedPaymentMethods := s1.storedPaymentMethods ++ [row],
                   paymentMethods := s1.paymentMethods ++ [method],
                   isLoading := false }, r.env, [c])
      | _, _ =>
        ({ s1 with error := some "Failed to add payment method",
                   isLoading := false }, r.env, [c])
    else
      let newPay : Row := [("id", "offline-pay-" ++ toString now), ("name", method)]
      ({ s1 with storedPaymentMethods := s1.storedPaymentMethods ++ [newPay],
                 queue := addToQueue s1.queue
                   { entity := some "payment_method", type := "add", data := newPay },
                 paymentMethods := s1.paymentMethods ++ [method],
                 isLoading := false }, env, [])

/-- One write issued against the transaction store while offline. -/
inductive OfflineWrite where
  | add (txData : Row) (now : Nat)
  | remove (i : String)
  | update (i : String) (updates : Row)
  | bulkRename (field oldValue newValue : String)
deriving DecidableEq, Repr

/-- Run one transaction-store write, keeping only the state (offline
writes never touch the environment). -/
def applyWrite (s : TxState) (env : Env) : OfflineWrite → TxState
  | OfflineWrite.add d now => (addTransaction d now s env).1
  | OfflineWrite.remove i => (removeTransaction i s env).1
  | OfflineWrite.update i u => (updateTransaction i u s env).1
  | OfflineWrite.bulkRename f ov nv => (bulkRenameInTransactions f ov nv s env).1

/-- Run a sequence of transaction-store writes in call order. -/
def runWrites (s : TxState) (env : Env) : List OfflineWrite → TxState
  | [] => s
  | w :: ws => runWrites (applyWrite s env w) env ws

/-- The queue entry the offline branch of each write enqueues. -/
def entryOf : OfflineWrite → QueueAction
  | OfflineWrite.add d now => { type := "add", data := setF d "id" (tempId now) }
  | OfflineWrite.remove i => { type := "delete", id := i }
  | OfflineWrite.update i u => { type := "update", id := i, data := u }
  | OfflineWrite.bulkRename f ov nv =>
    { type := "bulkRename", field := f, oldValue := ov, newValue := nv }

/-- The remote call the transaction drain issues for a queue entry:
`add`, `update` and `delete` entries each issue one call; every other
type (notably `bulkRename`) issues none. -/
def callOf (a : QueueAction) : Option RemoteCall :=
  if a.type = "add" then some (RemoteCall.insert "transactions" (removeF a.data "id"))
  else if a.type = "update" then some (RemoteCall.update "transactions" "id" a.id a.data)
  else if a.type = "delete" then some (RemoteCall.deleteByFilter "transactions" "id" a.id)
  else none

/-- A transaction row carrying category Food, as in spec scenario C. -/
def txFood : Row :=
  [("id", "t1"), ("date", "2024-01-05"), ("category", "Food"),
   ("payment_method", "Cash"), ("amount", "42.5")]

/-- A remote database holding one Food transaction. -/
def remFood : Remote := { transactions := [txFood], nextId := 7 }

/-- Online environment in which every remote call succeeds. -/
def envOkOnline : Env :=
  { online := true, remote := remFood, outcomes := fun _ => Outcome.ok, calls := 0 }

/-- Offline environment (no remote call is ever made through it). -/
def envOff : Env :=
  { online := false, remote := remFood, outcomes := fun _ => Outcome.ok, calls := 0 }

/-- Online environment whose first remote call resolves with its error
field set (a remote rejection, not a thrown exception). -/
def envRej0 : Env :=
  { online := true, remote := remFood,
    outcomes := fun n => if n == 0 then Outcome.rejected else Outcome.ok, calls := 0 }

/-- Online environment whose first remote call throws. -/
def envThr0 : Env :=
  { online := true, remote := remFood,
    outcomes := fun n => if n == 0 then Outcome.thrown else Outcome.ok, calls := 0 }

/-- Provider state mirroring `remFood`. -/
def s0 : TxState := { transactions := [txFood], storedTx := [txFood] }

/-- A transaction added offline at time 5 (temp id `offline-5`). -/
def c1add : Row := setF [("date", "2024-01-06"), ("category", "X")] "id" (tempId 5)

/-- State holding one pending offline add in the queue. -/
def c1s : TxState :=
  { storedTx := [c1add], transactions := [c1add],
    queue := [{ type := "add", data := c1add }] }

/-- State after `bulkRenameInTransactions "category" "Food" "Dining"`
performed offline against `s0`. -/
def c2mid : TxState := (bulkRenameInTransactions "category" "Food" "Dining" s0 envOff).1

/-- Payload of an offline transaction add (no id field yet). -/
def c3d : Row :=
  [("date", "2024-01-07"), ("category", "Food"), ("payment_method", "Cash"), ("amount", "10")]

/-- State after adding `c3d` offline at time 42 against `s0`. -/
def c3mid : TxState := (addTransaction c3d 42 s0 envOff).1

/-- State holding one pending delete of a temporary (never synced) id. -/
def c4s : TxState := { queue := [{ type := "delete", id := "offline-99" }] }

/-- State with a drain already in flight (`isSyncing` set) and a pending
delete in the queue. -/
def c7s : TxState :=
  { queue := [{ type := "delete", id := "t1" }], isSyncing := true,
    storedTx := [txFood], transactions := [txFood] }

/-- A row dated earlier than `r2`. -/
def r1 : Row := [("id", "a"), ("date", "2024-01-01")]

/-- A row dated later than `r1`. -/
def r2 : Row := [("id", "b"), ("date", "2024-02-01")]

/-- Mirror stored in ascending date order (as an offline add can leave it). -/
def c8s : TxState := { storedTx := [r1, r2] }

/-- State holding one entity-tagged add enqueued by the category store. -/
def c9s : TxState :=
  { queue := [{ entity := some "category", type := "add",
                data := [("id", "offline-cat-1"), ("name", "Food"), ("type", "expense")] }] }

/-- Category/payment-method store state with existing names. -/
def d0 : DataState :=
  { expenseCategories := ["Food"], incomeCategories := ["Salary"], paymentMethods := ["Cash"] }

theorem getF_setF (r : Row) (k v : String) : getF (setF r k v) k = some v := by
  induction r with
  | nil => simp [setF, getF]
  | cons p r ih =>
    by_cases h : p.1 == k
    · simp [setF, h, getF]
    · simp [setF, h, getF, List.find?] at ih ⊢
      simpa [h] using ih

theorem countP_insertOrd (key : String) (asc : Bool) (p : Row → Bool) (r : Row)
    (l : List Row) :
    (insertOrd key asc r l).countP p = l.countP p + (if p r then 1 else 0) := by
  induction l with
  | nil => simp [insertOrd, List.countP_cons]
  | cons x xs ih =>
    simp only [insertOrd]
    split <;> (try split) <;> simp [List.countP_cons, ih] <;> omega

theorem countP_sortRows (key : String) (asc : Bool) (p : Row → Bool) (l : List Row) :
    (sortRows key asc l).countP p = l.countP p := by
  induction l with
  | nil => rfl
  | cons r rs ih => simp [sortRows, countP_insertOrd, ih, List.countP_cons]

theorem performCall_outcome (env : Env) (c : RemoteCall) :
    (performCall env c).outcome = env.outcomes env.calls := by
  unfold performCall
  cases h : env.outcomes env.calls <;> simp only [h] <;> first
  | rfl
  | (cases c <;> rfl)

theorem performCall_env_outcomes (env : Env) (c : RemoteCall) :
    (performCall env c).env.outcomes = env.outcomes := by
  unfold performCall
  cases h : env.outcomes env.calls <;> simp only [h] <;> first
  | rfl
  | (cases c <;> rfl)

theorem performCall_env_online (env : Env) (c : RemoteCall) :
    (performCall env c).env.online = env.online := by
  unfold performCall
  cases h : env.outcomes env.calls <;> simp only [h] <;> first
  | rfl
  | (cases c <;> rfl)

theorem processTxQueue_spec (q : List QueueAction) :
    ∀ (env : Env) (l : List Row) (w : Option (List Row)),
      (∀ n, env.outcomes n ≠ Outcome.thrown) →
      (processTxQueue env l w q).trace = q.filterMap callOf ∧
      (processTxQueue env l w q).threw = false ∧
      (processTxQueue env l w q).env.outcomes = env.outcomes ∧
      (processTxQueue env l w q).env.online = env.online := by
  induction q with
  | nil =>
    intro env l w h
    simp [processTxQueue]
  | cons a rest ih =>
    intro env l w h
    by_cases h1 : a.type = "add"
    · have hnt : (performCall env (RemoteCall.insert "transactions" (removeF a.data "id"))).outcome
        ≠ Outcome.thrown := by
        rw [performCall_outcome]; exact h env.calls
      have hpres : ∀ n, (performCall env
          (RemoteCall.insert "transactions" (removeF a.data "id"))).env.outcomes n
          ≠ Outcome.thrown := by
        rw [performCall_env_outcomes]; exact h
      simp only [processTxQueue, h1, if_pos]
      cases hoc : (performCall env (RemoteCall.insert "transactions" (removeF a.data "id"))).outcome with
      | thrown => exact absurd hoc hnt
      | ok =>
        cases hd : (performCall env (RemoteCall.insert "transactions" (removeF a.data "id"))).data with
        | some row =>
          simp [hoc, hd, callOf, h1]
          exact ⟨(ih _ _ _ hpres).1, (ih _ _ _ hpres).2.1,
            Eq.trans (ih _ _ _ hpres).2.2.1 (performCall_env_outcomes _ _),
            Eq.trans (ih _ _ _ hpres).2.2.2 (performCall_env_online _ _)⟩
        | none =>
          simp [hoc, hd, callOf, h1]
          exact ⟨(ih _ _ _ hpres).1, (ih _ _ _ hpres).2.1,
            Eq.trans (ih _ _ _ hpres).2.2.1 (performCall_env_outcomes _ _),
            Eq.trans (ih _ _ _ hpres).2.2.2 (performCall_env_online _ _)⟩
      | rejected =>
        simp [hoc, callOf, h1]
        exact ⟨(ih _ _ _ hpres).1, (ih _ _ _ hpres).2.1,
          Eq.trans (ih _ _ _ hpres).2.2.1 (performCall_env_outcomes _ _),
          Eq.trans (ih _ _ _ hpres).2.2.2 (performCall_env_online _ _)⟩
    · by_cases h2 : a.type = "update"
      · have hnt : (performCall env (RemoteCall.update "transactions" "id" a.id a.data)).outcome
          ≠ Outcome.thrown := by
          rw [performCall_outcome]; exact h env.calls
        have hpres : ∀ n, (performCall env
            (RemoteCall.update "transactions" "id" a.id a.data)).env.outcomes n
            ≠ Outcome.thrown := by
          rw [performCall_env_outcomes]; exact h
        simp only [processTxQueue, h1, h2, if_pos, if_neg]
        cases hoc : (performCall env (RemoteCall.update "transactions" "id" a.id a.data)).outcome with
        | thrown => exact absurd hoc hnt
        | ok =>
          simp [hoc, callOf, h1, h2]
          exact ⟨(ih _ _ _ hpres).1, (ih _ _ _ hpres).2.1,
            Eq.trans (ih _ _ _ hpres).2.2.1 (performCall_env_outcomes _ _),
            Eq.trans (ih _ _ _ hpres).2.2.2 (performCall_env_online _ _)⟩
        | rejected =>
          simp [hoc, callOf, h1, h2]
          exact ⟨(ih _ _ _ hpres).1, (ih _ _ _ hpres).2.1,
            Eq.trans (ih _ _ _ hpres).2.2.1 (performCall_env_outcomes _ _),
            Eq.trans (ih _ _ _ hpres).2.2.2 (performCall_env_online _ _)⟩
      · by_cases h3 : a.type = "delete"
        · have hnt : (performCall env (RemoteCall.deleteByFilter "transactions" "id" a.id)).outcome
            ≠ Outcome.thrown := by
            rw [performCall_outcome]; exact h env.calls
          have hpres : ∀ n, (performCall env
              (RemoteCall.deleteByFilter "transactions" "id" a.id)).env.outcomes n
              ≠ Outcome.thrown := by
            rw [performCall_env_outcomes]; exact h
          simp only [processTxQueue, h1, h2, h3, if_pos, if_neg]
          cases hoc : (performCall env (RemoteCall.deleteByFilter "transactions" "id" a.id)).outcome with
          | thrown => exact absurd hoc hnt
          | ok =>
            simp [hoc, callOf, h1, h2, h3]
            exact ⟨(ih _ _ _ hpres).1, (ih _ _ _ hpres).2.1,
              Eq.trans (ih _ _ _ hpres).2.2.1 (performCall_env_outcomes _ _),
              Eq.trans (ih _ _ _ hpres).2.2.2 (performCall_env_online _ _)⟩
          | rejected =>
            simp [hoc, callOf, h1, h2, h3]
            exact ⟨(ih _ _ _ hpres).1, (ih _ _ _ hpres).2.1,
              Eq.trans (ih _ _ _ hpres).2.2.1 (performCall_env_outcomes _ _),
              Eq.trans (ih _ _ _ hpres).2.2.2 (performCall_env_online _ _)⟩
        · obtain ⟨t1, t2, t3, t4⟩ := ih env l w h
          simp [processTxQueue, h1, h2, h3, t1, t2, t3, t4, callOf]

theorem syncQueue_trace (s : TxState) (env : Env)
    (hon : env.online = true) (h : ∀ n, env.outcomes n ≠ Outcome.thrown) :
    (syncQueue s env).2.2 =
      s.queue.filterMap callOf ++ [RemoteCall.selectOrdered "transactions" "date" false] := by
  obtain ⟨t1, t2, t3, t4⟩ := processTxQueue_spec s.queue env s.storedTx none h
  simp only [syncQueue]
  simp only [t2, if_neg, Bool.false_eq_true, not_false_iff]
  cases hw : (processTxQueue env s.storedTx none s.queue).written with
  | some l =>
    simp only [refreshTransactions, hw, t4, hon, if_pos]
    cases hoc : (performCall (processTxQueue env s.storedTx none s.queue).env
        (RemoteCall.selectOrdered "transactions" "date" false)).outcome <;>
      simp [hoc, t1]
  | none =>
    simp only [refreshTransactions, hw, t4, hon, if_pos]
    cases hoc : (performCall (processTxQueue env s.storedTx none s.queue).env
        (RemoteCall.selectOrdered "transactions" "date" false)).outcome <;>
      simp [hoc, t1]

theorem applyWrite_queue (s : TxState) (env : Env) (hoff : env.online = false)
    (w : OfflineWrite) :
    (applyWrite s env w).queue = s.queue ++ [entryOf w] := by
  cases w <;> simp [applyWrite, addTransaction, removeTransaction, updateTransaction,
    bulkRenameInTransactions, hoff, addToQueue, entryOf]

theorem runWrites_queue (env : Env) (hoff : env.online = false) (ws : List OfflineWrite) :
    ∀ s : TxState, (runWrites s env ws).queue = s.queue ++ ws.map entryOf := by
  induction ws with
  | nil => intro s; simp [runWrites]
  | cons w ws ih =>
    intro s
    simp [runWrites, ih, applyWrite_queue s env hoff w]

/-- Counterexample to C1: in `c1s` the queue holds one pending offline
add and the remote insert resolves with its error field set (a remote
rejection, i.e. the call fails).  The drain does not abort: it goes on
to clear the queue, although the entry was never applied remotely (the
remote transactions table is unchanged), so an entry disappears without
having been applied remotely. -/
theorem c1_rejected_insert_clears_queue_counterexample :
    envRej0.outcomes 0 = Outcome.rejected ∧
    (syncQueue c1s envRej0).2.2 =
      [RemoteCall.insert "transactions" [("date", "2024-01-06"), ("category", "X")],
       RemoteCall.selectOrdered "transactions" "date" false] ∧
    (syncQueue c1s envRej0).1.queue = [] ∧
    (syncQueue c1s envRej0).2.1.remote.transactions = [txFood] := by
  decide

/-- C1 (corrected): if a remote call made while draining the Mutation
Queue throws, the whole drain aborts without clearing the queue — every
entry that was in the queue when the drain started is still in the
queue afterwards, same entries, same order.  (A remote call that merely
resolves with an error does not abort the drain; see the
counterexample.) -/
theorem c1_thrown_call_aborts_drain_keeping_queue (s : TxState) (env : Env)
    (h : (processTxQueue env s.storedTx none s.queue).threw = true) :
    (syncQueue s env).1.queue = s.queue := by
  simp only [syncQueue]
  cases hw : (processTxQueue env s.storedTx none s.queue).written <;> simp [hw, h]

/-- Witness for C1: a concrete drain whose remote insert throws leaves
the queue exactly as it was. -/
theorem c1_thrown_call_aborts_drain_keeping_queue_witness :
    (processTxQueue envThr0 c1s.storedTx none c1s.queue).threw = true ∧
    (syncQueue c1s envThr0).1.queue = c1s.queue :=
  ⟨by decide, c1_thrown_call_aborts_drain_keeping_queue c1s envThr0 (by decide)⟩

/-- C2 (code bug, evaluated at the failing input): a `BulkRename`
category Food → Dining enqueued while offline is silently dropped by
the drain.  The drain dispatches only on the types add, update and
delete, so the only remote call of the whole drain is the final refresh
select: no predicate-based update is ever issued, the remote Food row
keeps its old category, and the queue is cleared anyway, losing the
mutation. -/
theorem c2_bulk_rename_dropped_by_drain :
    c2mid.queue =
      [{ type := "bulkRename", field := "category", oldValue := "Food", newValue := "Dining" }] ∧
    (syncQueue c2mid envOkOnline).2.2 = [RemoteCall.selectOrdered "transactions" "date" false] ∧
    (syncQueue c2mid envOkOnline).2.1.remote.transactions = [txFood] ∧
    (syncQueue c2mid envOkOnline).1.queue = [] := by
  decide

/-- C3 (confirmed): an entity added while offline under the temporary
id `tempId now` appears, after a successful drain (every remote call
resolving normally), exactly once in the Local Store — under the
server-assigned id — and no entity with the temporary id remains; the
in-memory collection matches the persisted mirror. -/
theorem c3_offline_add_remapped_to_server_id (d : Row) (now : Nat) (s : TxState)
    (envA envB : Env)
    (hoff : envA.online = false) (hon : envB.online = true)
    (hok : ∀ n, envB.outcomes n = Outcome.ok)
    (hq : s.queue = [])
    (hsrv : envB.remote.transactions.countP (idIs (serverId envB.remote.nextId)) = 0)
    (htmp : envB.remote.transactions.countP (idIs (tempId now)) = 0)
    (hne : serverId envB.remote.nextId ≠ tempId now) :
    ((syncQueue (addTransaction d now s envA).1 envB).1.storedTx.countP
        (idIs (serverId envB.remote.nextId)) = 1) ∧
    ((syncQueue (addTransaction d now s envA).1 envB).1.storedTx.countP
        (idIs (tempId now)) = 0) ∧
    (syncQueue (addTransaction d now s envA).1 envB).1.transactions =
      (syncQueue (addTransaction d now s envA).1 envB).1.storedTx := by
  simp only [addTransaction, hoff, if_neg, Bool.false_eq_true, not_false_iff, hq]
  simp [syncQueue, processTxQueue, performCall, refreshTransactions, hok, hon,
    tableRows, setTable, addToQueue, countP_sortRows, List.countP_append,
    List.countP_cons, hsrv, htmp, idIs, getF_setF, hne, Ne.symm hne]

/-- Witness for C3: the concrete offline add of `c3d` at time 42
against `s0`, drained through `envOkOnline`, yields exactly one row
with the server id and none with the temporary id. -/
theorem c3_offline_add_remapped_to_server_id_witness :
    envOff.online = false ∧
    ((syncQueue (addTransaction c3d 42 s0 envOff).1 envOkOnline).1.storedTx.countP
        (idIs (serverId envOkOnline.remote.nextId)) = 1) ∧
    ((syncQueue (addTransaction c3d 42 s0 envOff).1 envOkOnline).1.storedTx.countP
        (idIs (tempId 42)) = 0) :=
  ⟨rfl,
   (c3_offline_add_remapped_to_server_id c3d 42 s0 envOff envOkOnline rfl rfl
     (fun _ => rfl) rfl (by decide) (by decide) (by decide)).1,
   (c3_offline_add_remapped_to_server_id c3d 42 s0 envOff envOkOnline rfl rfl
     (fun _ => rfl) rfl (by decide) (by decide) (by decide)).2.1⟩

/-- Counterexample to C4: draining a Delete entry whose identifier is
the temporary id `offline-99` (never synced) does issue a remote delete
call for that id, contradicting the claim that no remote delete is
issued for temporary ids. -/
theorem c4_temp_id_delete_counterexample :
    c4s.queue = [{ type := "delete", id := "offline-99" }] ∧
    RemoteCall.deleteByFilter "transactions" "id" "offline-99" ∈ (syncQueue c4s envOkOnline).2.2 := by
  decide

/-- C4 (corrected): the drain issues the remote delete by identifier
unconditionally — including when the identifier is still a temporary,
never-synced id; there is no temp-id check.  The first remote call of a
drain whose queue starts with a Delete entry is always the delete for
that very id. -/
theorem c4_delete_issued_unconditionally (i : String) (s : TxState) (env : Env)
    (rest : List QueueAction) :
    ((syncQueue { s with queue := { type := "delete", id := i } :: rest } env).2.2).head? =
      some (RemoteCall.deleteByFilter "transactions" "id" i) := by
  simp [syncQueue, processTxQueue]
  split <;> simp

/-- Counterexample to C5: for the offline write sequence consisting of
the single write W1 = BulkRename category Food → Dining, the queue does
hold the corresponding entry, but the drain issues no corresponding
Remote Store Adapter operation at all (its only call is the trailing
refresh select), so the adapter does not receive the operations of
W1..Wn in order. -/
theorem c5_bulk_rename_op_missing_counterexample :
    (runWrites s0 envOff [OfflineWrite.bulkRename "category" "Food" "Dining"]).queue =
      [{ type := "bulkRename", field := "category", oldValue := "Food", newValue := "Dining" }] ∧
    (syncQueue (runWrites s0 envOff [OfflineWrite.bulkRename "category" "Food" "Dining"])
        envOkOnline).2.2 =
      [RemoteCall.selectOrdered "transactions" "date" false] := by
  decide

/-- C5 (corrected): for any sequence of offline writes W1..Wn the
Mutation Queue holds the corresponding entries in exactly that order
(append-only FIFO), and the drain issues the remote operations of the
add, update and delete entries in exactly that order — but bulkRename
entries issue no remote operation at all (`callOf` is `none` on them),
and the drain ends with the refresh select. -/
theorem c5_fifo_queue_and_drain_order (s : TxState) (ws : List OfflineWrite)
    (envA envB : Env)
    (hoff : envA.online = false) (hon : envB.online = true)
    (hok : ∀ n, envB.outcomes n ≠ Outcome.thrown) :
    (runWrites s envA ws).queue = s.queue ++ ws.map entryOf ∧
    (syncQueue (runWrites s envA ws) envB).2.2 =
      (s.queue ++ ws.map entryOf).filterMap callOf ++
        [RemoteCall.selectOrdered "transactions" "date" false] := by
  have hq := runWrites_queue envA hoff ws s
  exact ⟨hq, by rw [syncQueue_trace _ _ hon hok, hq]⟩

/-- Witness for C5: a concrete offline sequence add, delete, bulkRename
is enqueued in that order and drained in that order, the bulkRename
contributing no remote call. -/
theorem c5_fifo_queue_and_drain_order_witness :
    (runWrites s0 envOff
        [OfflineWrite.add c3d 42, OfflineWrite.remove "t1",
         OfflineWrite.bulkRename "category" "Food" "Dining"]).queue =
      [{ type := "add", data := setF c3d "id" (tempId 42) },
       { type := "delete", id := "t1" },
       { type := "bulkRename", field := "category", oldValue := "Food", newValue := "Dining" }] ∧
    (syncQueue (runWrites s0 envOff
        [OfflineWrite.add c3d 42, OfflineWrite.remove "t1",
         OfflineWrite.bulkRename "category" "Food" "Dining"]) envOkOnline).2.2 =
      [RemoteCall.insert "transactions" (removeF (setF c3d "id" (tempId 42)) "id"),
       RemoteCall.deleteByFilter "transactions" "id" "t1",
       RemoteCall.selectOrdered "transactions" "date" false] := by
  have h := c5_fifo_queue_and_drain_order s0
    [OfflineWrite.add c3d 42, OfflineWrite.remove "t1",
     OfflineWrite.bulkRename "category" "Food" "Dining"]
    envOff envOkOnline rfl rfl (fun _ h => Outcome.noConfusion h)
  exact ⟨by rw [h.1]; decide, by rw [h.2]; decide⟩

/-- C6 (confirmed): for each of the four transaction-store writes
issued while online, if the remote call is rejected the operation fails
(the typed error result is surfaced to the caller) and the Local Store
is left untouched — neither the in-memory `transactions` collection nor
the persisted mirror is modified. -/
theorem c6_online_rejection_leaves_local_store_untouched
    (d : Row) (now : Nat) (i : String) (u : Row) (f ov nv : String)
    (s : TxState) (env : Env) (hon : env.online = true)
    (hrej : env.outcomes env.calls = Outcome.rejected) :
    ((addTransaction d now s env).1.transactions = s.transactions ∧
     (addTransaction d now s env).1.storedTx = s.storedTx ∧
     (addTransaction d now s env).2.2.2 = Except.error "Failed to add transaction") ∧
    ((removeTransaction i s env).1.transactions = s.transactions ∧
     (removeTransaction i s env).1.storedTx = s.storedTx ∧
     (removeTransaction i s env).2.2.2 = Except.error "Failed to remove transaction") ∧
    ((updateTransaction i u s env).1.transactions = s.transactions ∧
     (updateTransaction i u s env).1.storedTx = s.storedTx ∧
     (updateTransaction i u s env).2.2.2 = Except.error "Failed to update transaction") ∧
    ((bulkRenameInTransactions f ov nv s env).1.transactions = s.transactions ∧
     (bulkRenameInTransactions f ov nv s env).1.storedTx = s.storedTx ∧
     (bulkRenameInTransactions f ov nv s env).2.2.2 = Except.error "Failed to bulk rename") := by
  simp [addTransaction, removeTransaction, updateTransaction, bulkRenameInTransactions,
    hon, performCall, hrej]

/-- Witness for C6: concrete online writes against `s0` whose first
remote call is rejected fail and leave both Local Store components of
`s0` unchanged. -/
theorem c6_online_rejection_leaves_local_store_untouched_witness :
    envRej0.online = true ∧ envRej0.outcomes envRej0.calls = Outcome.rejected ∧
    ((addTransaction c3d 1 s0 envRej0).1.transactions = s0.transactions ∧
     (addTransaction c3d 1 s0 envRej0).1.storedTx = s0.storedTx ∧
     (addTransaction c3d 1 s0 envRej0).2.2.2 = Except.error "Failed to add transaction") ∧
    ((removeTransaction "t1" s0 envRej0).1.transactions = s0.transactions ∧
     (removeTransaction "t1" s0 envRej0).1.storedTx = s0.storedTx ∧
     (removeTransaction "t1" s0 envRej0).2.2.2 = Except.error "Failed to remove transaction") :=
  ⟨rfl, by decide,
   (c6_online_rejection_leaves_local_store_untouched c3d 1 "t1" [("amount", "5")]
     "category" "Food" "Dining" s0 envRej0 rfl (by decide)).1,
   (c6_online_rejection_leaves_local_store_untouched c3d 1 "t1" [("amount", "5")]
     "category" "Food" "Dining" s0 envRej0 rfl (by decide)).2.1⟩

/-- Counterexample to C7: `c7s` has `isSyncing = true` (a drain is in
flight), yet triggering `syncQueue` is not ignored: it still issues
remote calls, applies the pending delete remotely and clears the
queue. -/
theorem c7_second_trigger_not_ignored_counterexample :
    c7s.isSyncing = true ∧
    (syncQueue c7s envOkOnline).2.2 ≠ [] ∧
    (syncQueue c7s envOkOnline).1.queue = [] ∧
    (syncQueue c7s envOkOnline).2.1.remote.transactions = [] := by
  decide

/-- C7 (corrected): `syncQueue` sets the `isSyncing` flag while running
but never consults it — its behaviour is completely independent of the
flag, so a second trigger while a drain is in flight is not ignored and
performs the same queue processing again. -/
theorem c7_syncQueue_independent_of_isSyncing (s : TxState) (env : Env) :
    syncQueue { s with isSyncing := true } env = syncQueue { s with isSyncing := false } env := by
  rfl

/-- Counterexample to C8: with the mirror stored in ascending date
order, the offline read returns it as stored, which differs from the
date-descending order an online read over the same rows would return. -/
theorem c8_offline_read_unsorted_counterexample :
    (refreshTransactions c8s envOff).1.transactions = [r1, r2] ∧
    sortRows "date" false c8s.storedTx = [r2, r1] ∧
    (refreshTransactions c8s envOff).1.transactions ≠ sortRows "date" false c8s.storedTx := by
  decide

/-- C8 (corrected): a read issued while offline returns the Local Store
snapshot exactly as stored — no client-side filtering or reordering is
applied, so the result is in date-descending order only if the mirror
happened to be stored that way. -/
theorem c8_offline_read_returns_mirror_as_stored (s : TxState) (env : Env)
    (hoff : env.online = false) :
    (refreshTransactions s env).1.transactions = s.storedTx := by
  simp [refreshTransactions, hoff]

/-- Witness for C8: the concrete offline read of `c8s` returns the
stored mirror verbatim. -/
theorem c8_offline_read_returns_mirror_as_stored_witness :
    envOff.online = false ∧
    (refreshTransactions c8s envOff).1.transactions = c8s.storedTx :=
  ⟨rfl, c8_offline_read_returns_mirror_as_stored c8s envOff rfl⟩

/-- C9 (confirmed): the transaction drain dispatches on the type field
alone, never on the entity tag: a queue entry of type add — whatever
its entity tag, including `category` or `payment_method` entries
enqueued by the data store — makes the drain strip the id from the
payload and insert it into the `transactions` collection as the first
remote call. -/
theorem c9_drain_dispatches_on_type_only (ent : Option String) (d : Row)
    (s : TxState) (env : Env) (rest : List QueueAction) :
    ((syncQueue { s with queue := { type := "add", entity := ent, data := d } :: rest } env).2.2).head? =
      some (RemoteCall.insert "transactions" (removeF d "id")) := by
  simp [syncQueue, processTxQueue]
  split <;> simp

/-- C10 (confirmed): a call to `addExpenseCategory`, `addIncomeCategory`
or `addPaymentMethod` whose name trims to empty or is already present
in the corresponding list is a complete no-op: the state, the
environment (hence the remote store and the call count) and the call
trace are all unchanged. -/
theorem c10_guard_makes_add_a_noop (nm : String) (now : Nat) (s : DataState) (env : Env) :
    (nm.trim = "" ∨ nm ∈ s.expenseCategories →
      addExpenseCategory nm now s env = (s, env, [])) ∧
    (nm.trim = "" ∨ nm ∈ s.incomeCategories →
      addIncomeCategory nm now s env = (s, env, [])) ∧
    (nm.trim = "" ∨ nm ∈ s.paymentMethods →
      addPaymentMethod nm now s env = (s, env, [])) := by
  refine ⟨fun h => ?_, fun h => ?_, fun h => ?_⟩ <;>
    rcases h with h | h <;>
    simp [addExpenseCategory, addIncomeCategory, addPaymentMethod, h]

/-- Witness for C10: adding the already-present names of `d0` changes
nothing and makes no remote call. -/
theorem c10_guard_makes_add_a_noop_witness :
    "Food" ∈ d0.expenseCategories ∧
    addExpenseCategory "Food" 3 d0 envOkOnline = (d0, envOkOnline, []) ∧
    addIncomeCategory "Salary" 3 d0 envOkOnline = (d0, envOkOnline, []) ∧
    addPaymentMethod "Cash" 3 d0 envOkOnline = (d0, envOkOnline, []) :=
  ⟨by decide,
   (c10_guard_makes_add_a_noop "Food" 3 d0 envOkOnline).1 (Or.inr (by decide)),
   (c10_guard_makes_add_a_noop "Salary" 3 d0 envOkOnline).2.1 (Or.inr (by decide)),
   (c10_guard_makes_add_a_noop "Cash" 3 d0 envOkOnline).2.2 (Or.inr (by decide))⟩
